import Mathlib

/-!
Verification of the runbook interpreter and driver lifecycle manager of
`exe_agent/browser_use_agent.py` (class `BrowserUseAgent`).

Strings are modelled as `List Char`; Python's string operations used by the
code (`str.strip`, `str.split`, `str.split('=', 1)`, `str.startswith`,
`in`-substring test, slicing, `str.strip(':')`, `str.lower`, `str.upper`)
are re-implemented below with Python semantics.

The external world (Selenium driver sessions, subprocesses, HTTP) is
modelled by a `World` of driver sessions plus an `Oracle` giving the
outcome of each external call.  Method results are `Except` values
mirroring the Python exception classes, together with the updated world,
agent state, and a trace of observable events (driver acquisition,
`quit`, navigation, element lookups, dispatches, ...).
-/

namespace BrowserAgent

/-- Python whitespace characters stripped by `str.strip()` (ASCII subset,
which covers every input the runbook interpreter feeds to `strip`). -/
def isPyWs (c : Char) : Bool :=
  c = ' ' || c = '\t' || c = '\n' || c = '\r' || c = '\x0b' || c = '\x0c'

/-- Leading-whitespace strip (first half of Python `str.strip()`). -/
def stripLead (l : List Char) : List Char :=
  l.dropWhile isPyWs

/-- Trailing-whitespace strip (second half of Python `str.strip()`). -/
def stripTrail (l : List Char) : List Char :=
  (l.reverse.dropWhile isPyWs).reverse

/-- Python `str.strip()`. -/
def pyStrip (l : List Char) : List Char :=
  stripTrail (stripLead l)

/-- Python `str.startswith(pat)`. -/
def pyStartsWith : List Char → List Char → Bool
  | [], _ => true
  | _ :: _, [] => false
  | p :: ps, c :: cs => p = c && pyStartsWith ps cs

/-- Python `pat in s` substring test. -/
def pyContains (pat : List Char) : List Char → Bool
  | [] => pyStartsWith pat []
  | c :: cs => pyStartsWith pat (c :: cs) || pyContains pat cs

/-- The suffix of `l` after the first occurrence of `pat`
(Python `l[l.find(pat) + len(pat):]`, assuming `pat` occurs in `l`). -/
def afterFirstSub (pat : List Char) : List Char → List Char
  | [] => []
  | c :: cs =>
    if pyStartsWith pat (c :: cs) then (c :: cs).drop pat.length
    else afterFirstSub pat cs

/-- Tokenizer core of Python `str.split()`: `cur` is the (reversed)
non-whitespace token currently being read. -/
def splitWsGo : List Char → List Char → List (List Char)
  | [], cur => if cur = [] then [] else [cur.reverse]
  | c :: cs, cur =>
    if isPyWs c then
      if cur = [] then splitWsGo cs [] else cur.reverse :: splitWsGo cs []
    else splitWsGo cs (c :: cur)

/-- Python `str.split()` : split on runs of whitespace, dropping empties. -/
def pySplitWs (l : List Char) : List (List Char) :=
  splitWsGo l []

/-- Python `str.strip(':')` : removes leading and trailing colons. -/
def stripColons (l : List Char) : List Char :=
  ((l.dropWhile (fun c => c = ':')).reverse.dropWhile (fun c => c = ':')).reverse

/-- Python `str.lower()` (ASCII). -/
def pyLower (l : List Char) : List Char := l.map Char.toLower

/-- Python `str.upper()` (ASCII). -/
def pyUpper (l : List Char) : List Char := l.map Char.toUpper

/-- Decimal rendering of a line number, as Python string interpolation does. -/
def natStr (n : Nat) : List Char := (Nat.repr n).data

/-- Decimal rendering of a process return code (may be negative). -/
def intStr (n : Int) : List Char := (Int.repr n).data

/-- The double-quote character. -/
def dq : Char := Char.ofNat 34

/-- The single-quote character. -/
def sq : Char := Char.ofNat 39

/-- Python truthiness of an optional string: `None` and `""` are falsy. -/
def pyTruthyOpt : Option (List Char) → Bool
  | none => false
  | some s => !s.isEmpty

/-- Parameter mapping built by the parser (Python `dict`, insertion order,
`params[key] = value` overwrites in place). -/
abbrev Params := List (List Char × List Char)

/-- Python `dict.__setitem__`: overwrite in place if the key exists,
else append. -/
def insertKV (ps : Params) (k v : List Char) : Params :=
  match ps with
  | [] => [(k, v)]
  | (k', v') :: rest =>
    if k' = k then (k', v) :: rest else (k', v') :: insertKV rest k v

/-- Python `dict.get(key)`. -/
def lookupKV (ps : Params) (k : List Char) : Option (List Char) :=
  match ps with
  | [] => none
  | (k', v) :: rest => if k' = k then some v else lookupKV rest k

/-- Quote stripping of `_parse_action_line`: if the value is wrapped in
matching double (checked first) or single quotes, drop the first and last
character (Python `value[1:-1]`). -/
def stripQuotes (v : List Char) : List Char :=
  if pyStartsWith [dq] v && v.getLast? = some dq then (v.drop 1).dropLast
  else if pyStartsWith [sq] v && v.getLast? = some sq then (v.drop 1).dropLast
  else v

/-- One `key=value` token: split at the first `=`
(Python `p_part.split('=', 1)`), strip quotes from the value. -/
def tokenToKV (ps : Params) (tok : List Char) : Params :=
  if pyContains ['='] tok then
    let key := tok.takeWhile (fun c => c ≠ '=')
    let value := tok.drop (key.length + 1)
    insertKV ps key (stripQuotes value)
  else ps

/-- `BrowserUseAgent._parse_action_line`: whitespace-split the line; the
first token is the action name; each later token containing `=` becomes a
parameter.  Returns `none` when the line has no tokens (Python raises
`IndexError` on `parts[0]`, which the interpreter catches). -/
def _parse_action_line (s : List Char) : Option (List Char × Params) :=
  match pySplitWs s with
  | [] => none
  | a :: rest => some (a, rest.foldl tokenToKV [])

/-! ### World, agent state, oracle, events -/

/-- One Selenium driver session: whether the session is still alive
(`quit` has not been called) and the currently loaded page (`none` is the
fresh blank page of a newly constructed driver). -/
structure DriverSt where
  alive : Bool
  page : Option (List Char)
deriving DecidableEq, Repr

/-- All driver sessions ever created, indexed by creation order; a driver
handle is the index of its session. -/
structure World where
  drivers : List DriverSt
deriving DecidableEq, Repr

/-- `BrowserUseAgent` instance state: the managed instance driver slot
(`self.driver`) and the last known URL (`self.current_url`). -/
structure Agent where
  driver : Option Nat
  current_url : Option (List Char)
deriving DecidableEq, Repr

def listQuit : List DriverSt → Nat → List DriverSt
  | [], _ => []
  | d :: ds, 0 => { d with alive := false } :: ds
  | d :: ds, n + 1 => d :: listQuit ds n

def listSetPage : List DriverSt → Nat → List Char → List DriverSt
  | [], _, _ => []
  | d :: ds, 0, u => { d with page := some u } :: ds
  | d :: ds, n + 1, u => d :: listSetPage ds n u

/-- `driver.quit()`: tear down session `i`. -/
def quitDriver (w : World) (i : Nat) : World :=
  { drivers := listQuit w.drivers i }

/-- Effect of a successful `driver.get(url)` on session `i`. -/
def setPage (w : World) (i : Nat) (u : List Char) : World :=
  { drivers := listSetPage w.drivers i u }

/-- `BrowserUseAgent._is_driver_active`: the benign read (`driver.title`)
succeeds exactly when the session is alive; it never throws out of the
check. -/
def driverAlive (w : World) (i : Nat) : Bool :=
  match w.drivers[i]? with
  | some d => d.alive
  | none => false

/-- Page currently loaded in session `i`. -/
def getPage (w : World) (i : Nat) : Option (List Char) :=
  match w.drivers[i]? with
  | some d => d.page
  | none => none

/-- `BrowserUseAgent.get_new_driver`: constructs a fresh driver session on
a blank page.  The fallback retry re-runs the same construction, so
construction is modelled as succeeding (the `WebDriverSetupError` path is
out of scope of the modelled behaviours). -/
def newDriver (w : World) : Nat × World :=
  (w.drivers.length, { drivers := w.drivers ++ [{ alive := true, page := none }] })

/-- Outcome of the bounded `subprocess.run(command, ..., timeout=300)`. -/
inductive CliOutcome where
  | timedOut
  | completed (returncode : Int) (stdout stderr : List Char)
deriving DecidableEq, Repr

/-- Behaviour of the external collaborators (network, pages, subprocesses,
clock) consumed by the agent. -/
structure Oracle where
  /-- does `driver.get url` succeed (given an alive session)? -/
  navOk : List Char → Bool
  /-- does `find_element(By.CSS_SELECTOR, sel)` succeed on this page? -/
  findOk : Option (List Char) → List Char → Bool
  /-- `element.text` for the matched element. -/
  elemText : Option (List Char) → List Char → List Char
  /-- does `save_screenshot` succeed? -/
  shotOk : Bool
  /-- `datetime.now().strftime("%Y%m%d_%H%M%S")`. -/
  timestamp : List Char
  /-- result of `subprocess.run(cmd, ..., timeout=t)`. -/
  cli : List Char → Nat → CliOutcome
  /-- does `requests.request(method, url)` return a non-error response? -/
  apiOk : List Char → List Char → Bool

/-- Exception values raised by the agent (all subclasses of
`BrowserUseAgentError`), carrying their message string. -/
inductive AgentErr where
  | navE (msg : List Char)
  | searchE (msg : List Char)
  | textE (msg : List Char)
  | shotE (msg : List Char)
  | cliE (msg : List Char)
  | apiE (msg : List Char)
  | runbookE (msg : List Char)
deriving DecidableEq, Repr

/-- `str(e)` for an agent exception. -/
def AgentErr.msg : AgentErr → List Char
  | navE m => m
  | searchE m => m
  | textE m => m
  | shotE m => m
  | cliE m => m
  | apiE m => m
  | runbookE m => m

instance {ε α : Type} [DecidableEq ε] [DecidableEq α] : DecidableEq (Except ε α) :=
  fun x y =>
    match x, y with
    | .error a, .error b =>
      if h : a = b then .isTrue (congrArg Except.error h)
      else .isFalse fun hc => h (Except.error.inj hc)
    | .ok a, .ok b =>
      if h : a = b then .isTrue (congrArg Except.ok h)
      else .isFalse fun hc => h (Except.ok.inj hc)
    | .error _, .ok _ => .isFalse fun hc => Except.noConfusion hc
    | .ok _, .error _ => .isFalse fun hc => Except.noConfusion hc

/-- Observable events of a run, in program order. -/
inductive Event where
  | acquire (i : Nat)
  | quitDrv (i : Nat)
  | navigate (i : Nat) (url : List Char)
  | findEl (i : Nat) (sel : List Char)
  | shot (i : Nat)
  | cliRun (cmd : List Char)
  | apiCall (method url : List Char)
  | stepStart (label : List Char)
  | dispatch (name : List Char) (line : Nat)
deriving DecidableEq, Repr

/-- Result of a fallible agent method: exception or value, plus the
updated world, agent state, and emitted events. -/
abbrev PrimRes (α : Type) := Except AgentErr α × World × Agent × List Event

/-! ### Driver lifecycle and browser/CLI/API methods -/

/-- `BrowserUseAgent._get_instance_driver`: return `self.driver`,
creating a fresh one when the slot is empty or the session fails the
liveness check (the stale session is not quit, merely replaced). -/
def _get_instance_driver (w : World) (ag : Agent) : Nat × World × Agent × List Event :=
  match ag.driver with
  | some i =>
    if driverAlive w i then (i, w, ag, [])
    else
      let (j, w') := newDriver w
      (j, w', { ag with driver := some j }, [Event.acquire j])
  | none =>
    let (j, w') := newDriver w
    (j, w', { ag with driver := some j }, [Event.acquire j])

/-- `BrowserUseAgent.close`: quit the instance driver if the slot is
occupied and clear the slot and the cached URL.  `quit` may raise
`WebDriverException`; the `except` clause only logs and the `finally`
clause runs either way, so both branches yield the same state and `close`
is a total function (it never propagates an exception). -/
def close (w : World) (ag : Agent) : World × Agent × List Event :=
  match ag.driver with
  | none => (w, ag, [])
  | some i =>
    (quitDriver w i, { driver := none, current_url := none }, [Event.quitDrv i])

/-- `BrowserUseAgent.go_to`: navigate the passed driver (or the instance
driver) to `url`.  `driver.get` fails when the session is dead or the
oracle reports a navigation fault (`TimeoutException`/`WebDriverException`
are collapsed into one `NavigationError`, as both raise it); on failure
with no passed driver and the instance driver active in the slot,
`self.close()` runs before the raise. -/
def go_to (o : Oracle) (url : List Char) (driver : Option Nat)
    (w : World) (ag : Agent) : PrimRes Nat :=
  let (active, w1, ag1, ev1) :=
    match driver with
    | some d => (d, w, ag, ([] : List Event))
    | none => _get_instance_driver w ag
  if driverAlive w1 active && o.navOk url then
    let w2 := setPage w1 active url
    let ag2 := if ag1.driver = some active then { ag1 with current_url := some url } else ag1
    (.ok active, w2, ag2, ev1 ++ [Event.navigate active url])
  else
    let m := "Error navigating to ".data ++ url ++ ": WebDriverException".data
    if driver = none && ag1.driver = some active then
      let (w2, ag2, ev2) := close w1 ag1
      (.error (AgentErr.navE m), w2, ag2, ev1 ++ ev2)
    else
      (.error (AgentErr.navE m), w1, ag1, ev1)

/-- `BrowserUseAgent.search`: ensure a driver, run the
"instance driver not on a page" / "provided driver inactive" preamble,
then locate the search box and type the query (key events have no
modelled state effect).  On an element/driver fault the instance driver
is closed (when it was the one used) and `SearchError` is raised. -/
def search (o : Oracle) (query selector : List Char) (submit : Bool)
    (driver : Option Nat) (w : World) (ag : Agent) : PrimRes Nat :=
  let (active, w1, ag1, ev1) :=
    match driver with
    | some d => (d, w, ag, ([] : List Event))
    | none => _get_instance_driver w ag
  let _ := (query, submit)
  let finish : World → Agent → List Event → PrimRes Nat := fun w2 ag2 ev =>
    if driverAlive w2 active && o.findOk (getPage w2 active) selector then
      (.ok active, w2, ag2, ev ++ [Event.findEl active selector])
    else
      let m := "Error performing search: NoSuchElementException".data
      if driver = none && ag2.driver = some active then
        let (w3, ag3, ev3) := close w2 ag2
        (.error (AgentErr.searchE m), w3, ag3, ev ++ ev3)
      else
        (.error (AgentErr.searchE m), w2, ag2, ev)
  if ag1.driver = some active && !driverAlive w1 active then
    if !pyTruthyOpt ag1.current_url then
      (.error (AgentErr.searchE
        "Cannot search: instance driver is not on a page (current_url is None).".data),
       w1, ag1, ev1)
    else
      match go_to o (ag1.current_url.getD []) (some active) w1 ag1 with
      | (.error e, w2, ag2, ev2) => (.error e, w2, ag2, ev1 ++ ev2)
      | (.ok _, w2, ag2, ev2) => finish w2 ag2 (ev1 ++ ev2)
  else if driver.isSome && !driverAlive w1 active then
    (.error (AgentErr.searchE
      "Cannot search: provided driver is not active or on a page.".data), w1, ag1, ev1)
  else
    finish w1 ag1 ev1

/-- `BrowserUseAgent.get_text`: same preamble as `search`, then locate the
element and return its visible text. -/
def get_text (o : Oracle) (selector : List Char) (driver : Option Nat)
    (w : World) (ag : Agent) : PrimRes (List Char) :=
  let (active, w1, ag1, ev1) :=
    match driver with
    | some d => (d, w, ag, ([] : List Event))
    | none => _get_instance_driver w ag
  let finish : World → Agent → List Event → PrimRes (List Char) := fun w2 ag2 ev =>
    if driverAlive w2 active && o.findOk (getPage w2 active) selector then
      (.ok (o.elemText (getPage w2 active) selector), w2, ag2,
       ev ++ [Event.findEl active selector])
    else
      let m := "Error getting text using selector '".data ++ selector ++
               "': NoSuchElementException".data
      if driver = none && ag2.driver = some active then
        let (w3, ag3, ev3) := close w2 ag2
        (.error (AgentErr.textE m), w3, ag3, ev ++ ev3)
      else
        (.error (AgentErr.textE m), w2, ag2, ev)
  if ag1.driver = some active && !driverAlive w1 active then
    if !pyTruthyOpt ag1.current_url then
      (.error (AgentErr.textE
        "Cannot get text: instance driver not on a page (current_url is None).".data),
       w1, ag1, ev1)
    else
      match go_to o (ag1.current_url.getD []) (some active) w1 ag1 with
      | (.error e, w2, ag2, ev2) => (.error e, w2, ag2, ev1 ++ ev2)
      | (.ok _, w2, ag2, ev2) => finish w2 ag2 (ev1 ++ ev2)
  else if driver.isSome && !driverAlive w1 active then
    (.error (AgentErr.textE
      "Cannot get text: provided driver is not active or on a page.".data), w1, ag1, ev1)
  else
    finish w1 ag1 ev1

/-- `BrowserUseAgent.screenshot`: same preamble, then save a timestamped
screenshot and return its filename. -/
def screenshot (o : Oracle) (namePfx : List Char) (driver : Option Nat)
    (w : World) (ag : Agent) : PrimRes (List Char) :=
  let (active, w1, ag1, ev1) :=
    match driver with
    | some d => (d, w, ag, ([] : List Event))
    | none => _get_instance_driver w ag
  let filename := namePfx ++ "_".data ++ o.timestamp ++ ".png".data
  let finish : World → Agent → List Event → PrimRes (List Char) := fun w2 ag2 ev =>
    if driverAlive w2 active && o.shotOk then
      (.ok filename, w2, ag2, ev ++ [Event.shot active])
    else
      let m := "Error taking screenshot: WebDriverException".data
      if driver = none && ag2.driver = some active then
        let (w3, ag3, ev3) := close w2 ag2
        (.error (AgentErr.shotE m), w3, ag3, ev ++ ev3)
      else
        (.error (AgentErr.shotE m), w2, ag2, ev)
  if ag1.driver = some active && !driverAlive w1 active then
    if !pyTruthyOpt ag1.current_url then
      (.error (AgentErr.shotE
        "Cannot take screenshot: instance driver not on a page (current_url is None).".data),
       w1, ag1, ev1)
    else
      match go_to o (ag1.current_url.getD []) (some active) w1 ag1 with
      | (.error e, w2, ag2, ev2) => (.error e, w2, ag2, ev1 ++ ev2)
      | (.ok _, w2, ag2, ev2) => finish w2 ag2 (ev1 ++ ev2)
  else if driver.isSome && !driverAlive w1 active then
    (.error (AgentErr.shotE
      "Cannot take screenshot: provided driver is not active or on a page.".data),
     w1, ag1, ev1)
  else
    finish w1 ag1 ev1

/-- `BrowserUseAgent.run_cli`: run the command as a subprocess bounded by
the 300-second timeout, raising `CLICommandError` on non-zero exit (with
the return code and stderr in the message) or on timeout.  The
macOS-only `osascript` terminal mirror swallows all of its own errors and
has no effect on the captured result, so it is not modelled. -/
def run_cli (o : Oracle) (command : List Char) :
    Except AgentErr (List Char × List Char) × List Event :=
  match o.cli command 300 with
  | .timedOut =>
    (.error (AgentErr.cliE ("Command '".data ++ command ++ "' timed out.".data)),
     [Event.cliRun command])
  | .completed rc out err =>
    if rc ≠ 0 then
      (.error (AgentErr.cliE
        ("Command '".data ++ command ++ "' failed with return code ".data ++
         intStr rc ++ "\nStderr: ".data ++ err)),
       [Event.cliRun command])
    else
      (.ok (out, err), [Event.cliRun command])

/-- `BrowserUseAgent.call_api`: issue the HTTP request (10s default
timeout); any transport fault or 4xx/5xx status raises the base
`BrowserUseAgentError` with the wrapped message. -/
def call_api (o : Oracle) (method url : List Char) :
    Except AgentErr Unit × List Event :=
  if o.apiOk method url then
    (.ok (), [Event.apiCall (pyUpper method) url])
  else
    (.error (AgentErr.apiE
      ("API call to ".data ++ pyUpper method ++ " ".data ++ url ++
       " failed: RequestException".data)),
     [Event.apiCall (pyUpper method) url])

/-! ### Runbook action handlers -/

/-- `BrowserUseAgent._handle_go_to`. -/
def _handle_go_to (o : Oracle) (params : Params) (cur : Option Nat)
    (w : World) (ag : Agent) : PrimRes (Option Nat) :=
  let url? := lookupKV params "url".data
  if !pyTruthyOpt url? then
    (.error (AgentErr.runbookE "go_to action missing 'url' parameter.".data), w, ag, [])
  else
    let url := url?.getD []
    match go_to o url cur w ag with
    | (.ok nd, w', ag', ev) =>
      let ag'' := if ag'.driver = some nd then { ag' with current_url := some url } else ag'
      (.ok (some nd), w', ag'', ev)
    | (.error e, w', ag', ev) => (.error e, w', ag', ev)

/-- `BrowserUseAgent._handle_search` (returns the passed-in handle,
not the one `search` used). -/
def _handle_search (o : Oracle) (params : Params) (cur : Option Nat)
    (w : World) (ag : Agent) : PrimRes (Option Nat) :=
  let query? := lookupKV params "query".data
  let selector? := lookupKV params "selector".data
  if !pyTruthyOpt query? || !pyTruthyOpt selector? then
    (.error (AgentErr.runbookE "search action missing 'query' or 'selector'.".data),
     w, ag, [])
  else
    let submit := pyLower ((lookupKV params "submit".data).getD "true".data) = "true".data
    match search o (query?.getD []) (selector?.getD []) submit cur w ag with
    | (.ok _, w', ag', ev) => (.ok cur, w', ag', ev)
    | (.error e, w', ag', ev) => (.error e, w', ag', ev)

/-- `BrowserUseAgent._handle_get_text`. -/
def _handle_get_text (o : Oracle) (params : Params) (cur : Option Nat)
    (w : World) (ag : Agent) : PrimRes (Option Nat) :=
  let selector? := lookupKV params "selector".data
  if !pyTruthyOpt selector? then
    (.error (AgentErr.runbookE "get_text action missing 'selector'.".data), w, ag, [])
  else
    match get_text o (selector?.getD []) cur w ag with
    | (.ok _, w', ag', ev) => (.ok cur, w', ag', ev)
    | (.error e, w', ag', ev) => (.error e, w', ag', ev)

/-- `BrowserUseAgent._handle_screenshot` (`dict.get` default, not
truthiness: an explicitly empty prefix is used as-is). -/
def _handle_screenshot (o : Oracle) (params : Params) (cur : Option Nat)
    (w : World) (ag : Agent) : PrimRes (Option Nat) :=
  let namePfx := (lookupKV params "name_prefix".data).getD "runbook_screenshot".data
  match screenshot o namePfx cur w ag with
  | (.ok _, w', ag', ev) => (.ok cur, w', ag', ev)
  | (.error e, w', ag', ev) => (.error e, w', ag', ev)

/-- `BrowserUseAgent._handle_cli`: the driver handle is neither read nor
written; the world and agent state are untouched. -/
def _handle_cli (o : Oracle) (params : Params) (cur : Option Nat)
    (w : World) (ag : Agent) : PrimRes (Option Nat) :=
  let command? := lookupKV params "command".data
  if !pyTruthyOpt command? then
    (.error (AgentErr.runbookE "cli action missing 'command'.".data), w, ag, [])
  else
    match run_cli o (command?.getD []) with
    | (.ok _, ev) => (.ok cur, w, ag, ev)
    | (.error e, ev) => (.error e, w, ag, ev)

/-- `BrowserUseAgent._handle_api`. -/
def _handle_api (o : Oracle) (params : Params) (cur : Option Nat)
    (w : World) (ag : Agent) : PrimRes (Option Nat) :=
  let method := (lookupKV params "method".data).getD "get".data
  let url? := lookupKV params "url".data
  if !pyTruthyOpt url? then
    (.error (AgentErr.runbookE "api action missing 'url'.".data), w, ag, [])
  else
    match call_api o method (url?.getD []) with
    | (.ok _, ev) => (.ok cur, w, ag, ev)
    | (.error e, ev) => (.error e, w, ag, ev)

/-- Membership in the `action_handlers` mapping of `run_runbook`. -/
def isHandlerName (name : List Char) : Bool :=
  name = "go_to".data || name = "search".data || name = "get_text".data ||
  name = "screenshot".data || name = "cli".data || name = "api".data

/-- `action_handlers[action_name](params, current_runbook_driver)`; only
invoked under the `isHandlerName` membership guard, so the catch-all
branch (mirroring the unknown-action raise) is unreachable. -/
def callHandler (o : Oracle) (name : List Char) (params : Params)
    (cur : Option Nat) (w : World) (ag : Agent) : PrimRes (Option Nat) :=
  if name = "go_to".data then _handle_go_to o params cur w ag
  else if name = "search".data then _handle_search o params cur w ag
  else if name = "get_text".data then _handle_get_text o params cur w ag
  else if name = "screenshot".data then _handle_screenshot o params cur w ag
  else if name = "cli".data then _handle_cli o params cur w ag
  else if name = "api".data then _handle_api o params cur w ag
  else (.error (AgentErr.runbookE ("Unknown action '".data ++ name ++ "'".data)), w, ag, [])

/-! ### The line classifier and interpreter loop of `run_runbook` -/

/-- How the loop body of `run_runbook` treats one raw line. -/
inductive LineKind where
  | blank
  | comment
  | step (label : List Char)
  | action (rest : List Char)
  | malformed
deriving DecidableEq, Repr

/-- Classification of one raw runbook line, exactly as the chain of
conditions in the loop body of `run_runbook`:
the line is stripped; empty and `#`-lines are skipped; a line that does
not start with `ACTION:` (bare or behind the two tolerated indentations,
which a stripped line can never exhibit) starts a new step labelled with
the line `strip(':')`-ed; otherwise, if the line contains `ACTION:`, the
text after its first occurrence is the action text; otherwise the line is
"malformed" and ignored with a warning. -/
def classifyLine (raw : List Char) : LineKind :=
  let line := pyStrip raw
  if line = [] then .blank
  else if pyStartsWith "#".data line then .comment
  else if !pyStartsWith "ACTION:".data line &&
          !pyStartsWith "    ACTION:".data line &&
          !pyStartsWith "  ACTION:".data line then
    .step (stripColons line)
  else if pyContains "ACTION:".data line then
    .action (pyStrip (afterFirstSub "ACTION:".data line))
  else .malformed

/-- Message of the `RunbookError` wrapping a parse failure. -/
def parseErrMsg (n : Nat) (line : List Char) : List Char :=
  "Error parsing action line ".data ++ natStr n ++ " ('".data ++ line ++
  "'): list index out of range".data

/-- `f"{current_step_label}"`: Python renders the `None` label as the
string `None`. -/
def labelStr : Option (List Char) → List Char
  | none => "None".data
  | some l => l

/-- Message of the `RunbookError` wrapping a handler failure (all modelled
handler exceptions derive `BrowserUseAgentError`, so the
`except BrowserUseAgentError` arm is the one taken). -/
def wrapMsg (name : List Char) (lbl : Option (List Char)) (n : Nat)
    (inner : List Char) : List Char :=
  "Error in action '".data ++ name ++ "' (step: ".data ++ labelStr lbl ++
  ", line: ".data ++ natStr n ++ "): ".data ++ inner

/-- Message of the unknown-action `RunbookError`. -/
def unknownMsg (name : List Char) (n : Nat) : List Char :=
  "Unknown action '".data ++ name ++ "' in runbook at line ".data ++ natStr n ++ ".".data

/-- State threaded through the `run_runbook` loop: the world, the agent
object, `current_runbook_driver` and `current_step_label`. -/
structure RunState where
  world : World
  agent : Agent
  rbDriver : Option Nat
  stepLabel : Option (List Char)
deriving DecidableEq, Repr

/-- One iteration of the `run_runbook` line loop on the line numbered `n`
(1-based).  A step-label line quits `current_runbook_driver` (if any) and
resets it; an action line is parsed and dispatched, errors being wrapped
into `RunbookError`; on an error the loop state keeps the old
`current_runbook_driver`. -/
def processLine (o : Oracle) (n : Nat) (raw : List Char) (st : RunState) :
    Except AgentErr Unit × RunState × List Event :=
  match classifyLine raw with
  | .blank => (.ok (), st, [])
  | .comment => (.ok (), st, [])
  | .step lbl =>
    match st.rbDriver with
    | some i =>
      (.ok (),
       { st with world := quitDriver st.world i, rbDriver := none, stepLabel := some lbl },
       [Event.stepStart lbl, Event.quitDrv i])
    | none =>
      (.ok (), { st with stepLabel := some lbl }, [Event.stepStart lbl])
  | .action rest =>
    match _parse_action_line rest with
    | none =>
      (.error (AgentErr.runbookE (parseErrMsg n (pyStrip raw))), st, [])
    | some (name, params) =>
      if isHandlerName name then
        match callHandler o name params st.rbDriver st.world st.agent with
        | (.ok newCur, w', ag', ev) =>
          (.ok (),
           { world := w', agent := ag', rbDriver := newCur, stepLabel := st.stepLabel },
           Event.dispatch name n :: ev)
        | (.error e, w', ag', ev) =>
          (.error (AgentErr.runbookE (wrapMsg name st.stepLabel n e.msg)),
           { world := w', agent := ag', rbDriver := st.rbDriver, stepLabel := st.stepLabel },
           Event.dispatch name n :: ev)
      else
        (.error (AgentErr.runbookE (unknownMsg name n)), st, [])
  | .malformed => (.ok (), st, [])

/-- The `for line_num, raw_line in enumerate(lines, 1)` loop: process the
numbered lines in order, stopping at the first raised error. -/
def runbookLoop (o : Oracle) : List (Nat × List Char) → RunState →
    Except AgentErr Unit × RunState × List Event
  | [], st => (.ok (), st, [])
  | (n, raw) :: rest, st =>
    match processLine o n raw st with
    | (.ok _, st', tr) =>
      let (r, st'', tr') := runbookLoop o rest st'
      (r, st'', tr ++ tr')
    | (.error e, st', tr) => (.error e, st', tr)

/-- `enumerate(lines, 1)`. -/
def numberFrom (n : Nat) : List (List Char) → List (Nat × List Char)
  | [] => []
  | l :: ls => (n, l) :: numberFrom (n + 1) ls

/-- `BrowserUseAgent.run_runbook` on the lines of an already-read runbook
file (reading the file is I/O; its `FileNotFoundError`/`IOError` wrapping
happens before the modelled loop): run the loop, then the `finally`
clause quits `current_runbook_driver` if one is still set — on normal
completion and on error alike. -/
def run_runbook (o : Oracle) (lines : List (List Char)) (w : World) (ag : Agent) :
    Except AgentErr Unit × RunState × List Event :=
  let st0 : RunState := { world := w, agent := ag, rbDriver := none, stepLabel := none }
  let (r, st, tr) := runbookLoop o (numberFrom 1 lines) st0
  match st.rbDriver with
  | some i => (r, { st with world := quitDriver st.world i }, tr ++ [Event.quitDrv i])
  | none => (r, st, tr)

/-! ### Concrete scenarios

An external world where `http://example.com` is reachable and carries an
`h1` element, the blank page of a fresh driver has a `body` element but no
`h1`, subprocesses succeed, and HTTP calls succeed. -/

def oracleA : Oracle where
  navOk := fun u => u = "http://example.com".data
  findOk := fun p s =>
    (p = some "http://example.com".data && (s = "h1".data || s = "body".data)) ||
    (p = none && s = "body".data)
  elemText := fun _ _ => "Example Domain".data
  shotOk := true
  timestamp := "20240101_120000".data
  cli := fun _ _ => .completed 0 [] []
  apiOk := fun _ _ => true

/-- The empty initial world: no driver session exists yet. -/
def w0 : World := { drivers := [] }

/-- A freshly constructed `BrowserUseAgent`. -/
def ag0 : Agent := { driver := none, current_url := none }

/-- End-to-end scenario A of the spec. -/
def scenarioALines : List (List Char) :=
  ["Step1:".data,
   "  ACTION: go_to url=\"http://example.com\"".data,
   "Step2:".data,
   "  ACTION: get_text selector=\"h1\"".data]

/-- End-to-end scenario B of the spec (unknown action name). -/
def scenarioBLines : List (List Char) :=
  ["Step1:".data, "  ACTION: unknown_action x=1".data]

/-- End-to-end scenario C of the spec (two consecutive `cli` actions). -/
def scenarioCLines : List (List Char) :=
  ["StepC:".data, "  ACTION: cli command=ls".data, "  ACTION: cli command=pwd".data]

/-- A one-step runbook whose single `get_text` starts with no runbook
driver; the selector `body` is present even on the fresh blank page. -/
def leakLines : List (List Char) :=
  ["Step1:".data, "  ACTION: get_text selector=body".data]

/-- An external world whose subprocess runner fails command `bad` with
exit code 2 and stderr `boom`, and times every other command out. -/
def oracleCliFail : Oracle :=
  { oracleA with
    cli := fun c _ => if c = "bad".data then .completed 2 [] "boom".data else .timedOut }

/-- A runbook state mid-run: one live session loaded on `example.com`,
held both as the instance driver and as the runbook driver. -/
def stBoundary : RunState :=
  { world := { drivers := [{ alive := true, page := some "http://example.com".data }] }
  , agent := { driver := some 0, current_url := some "http://example.com".data }
  , rbDriver := some 0
  , stepLabel := some "Step1".data }

/-- A runbook whose loop ends with the runbook driver still active. -/
def goLines : List (List Char) :=
  ["S:".data, "  ACTION: go_to url=\"http://example.com\"".data]

/-- A mid-run state with a current step label `S`. -/
def stLabelled : RunState :=
  { world := w0, agent := ag0, rbDriver := none, stepLabel := some "S".data }

/-! ### Basic lemmas about the string primitives -/

theorem pyStartsWith_iff (p : List Char) : ∀ l : List Char,
    pyStartsWith p l = true ↔ ∃ t, p ++ t = l := by
  induction p with
  | nil =>
    intro l
    simp [pyStartsWith]
  | cons c cs ih =>
    intro l
    cases l with
    | nil => simp [pyStartsWith]
    | cons d ds =>
      simp only [pyStartsWith, Bool.and_eq_true, decide_eq_true_eq, ih ds,
        List.cons_append, List.cons.injEq]
      constructor
      · rintro ⟨rfl, t, rfl⟩
        exact ⟨t, rfl, rfl⟩
      · rintro ⟨t, rfl, rfl⟩
        exact ⟨rfl, t, rfl⟩

theorem pyContains_iff (p : List Char) : ∀ l : List Char,
    pyContains p l = true ↔ ∃ s t, s ++ p ++ t = l := by
  intro l
  induction l with
  | nil =>
    simp only [pyContains, pyStartsWith_iff]
    constructor
    · rintro ⟨t, ht⟩
      exact ⟨[], t, by simpa using ht⟩
    · rintro ⟨s, t, h⟩
      obtain ⟨hsp, htn⟩ := List.append_eq_nil.mp h
      obtain ⟨hs, hp⟩ := List.append_eq_nil.mp hsp
      exact ⟨t, by simp [hp, htn]⟩
  | cons d ds ih =>
    simp only [pyContains, Bool.or_eq_true, pyStartsWith_iff, ih]
    constructor
    · rintro (⟨t, ht⟩ | ⟨s, t, ht⟩)
      · exact ⟨[], t, by simpa using ht⟩
      · exact ⟨d :: s, t, by simp [ht]⟩
    · rintro ⟨s, t, h⟩
      cases s with
      | nil => exact Or.inl ⟨t, by simpa using h⟩
      | cons x xs =>
        simp only [List.cons_append] at h
        injection h with h1 h2
        exact Or.inr ⟨xs, t, h2⟩

theorem dropWhile_head_false (p : Char → Bool) :
    ∀ (l : List Char) (c : Char) (rest : List Char),
      l.dropWhile p = c :: rest → p c = false := by
  intro l
  induction l with
  | nil => intro c rest h; simp [List.dropWhile] at h
  | cons d ds ih =>
    intro c rest h
    by_cases hd : p d = true
    · rw [List.dropWhile_cons_of_pos hd] at h
      exact ih c rest h
    · rw [List.dropWhile_cons_of_neg hd] at h
      injection h with h1 _
      subst h1
      simpa using hd

theorem dropWhile_isSuffix (p : Char → Bool) (l : List Char) :
    ∃ t, t ++ l.dropWhile p = l := by
  induction l with
  | nil => exact ⟨[], rfl⟩
  | cons d ds ih =>
    by_cases hd : p d = true
    · obtain ⟨t, ht⟩ := ih
      exact ⟨d :: t, by rw [List.dropWhile_cons_of_pos hd]; simpa using ht⟩
    · exact ⟨[], by rw [List.dropWhile_cons_of_neg hd]; simp⟩

/-- The first character of a `strip()`-ed line is never whitespace. -/
theorem pyStrip_head_not_ws (raw : List Char) (c : Char) (rest : List Char)
    (h : pyStrip raw = c :: rest) : isPyWs c = false := by
  unfold pyStrip stripTrail stripLead at h
  obtain ⟨t, ht⟩ := dropWhile_isSuffix isPyWs (raw.dropWhile isPyWs).reverse
  have hd : ((raw.dropWhile isPyWs).reverse.dropWhile isPyWs).reverse ++ t.reverse =
      raw.dropWhile isPyWs := by
    simpa using congrArg List.reverse ht
  rw [h] at hd
  exact dropWhile_head_false isPyWs raw c (rest ++ t.reverse) (by simpa using hd.symm)

theorem splitWsGo_noWs (w : List Char) (hw : ∀ c ∈ w, isPyWs c = false) :
    ∀ cur : List Char, ¬(cur = [] ∧ w = []) →
      splitWsGo w cur = [cur.reverse ++ w] := by
  induction w with
  | nil =>
    intro cur hne
    have hc : cur ≠ [] := fun h => hne ⟨h, rfl⟩
    simp [splitWsGo, hc]
  | cons c cs ih =>
    intro cur _
    have hc : isPyWs c = false := hw c (by simp)
    rw [splitWsGo]
    simp only [hc, Bool.false_eq_true, if_false]
    rw [ih (fun d hd => hw d (by simp [hd])) (c :: cur) (by simp)]
    simp

theorem splitWsGo_append (w rest : List Char) (hw : ∀ c ∈ w, isPyWs c = false) :
    ∀ cur : List Char, ¬(cur = [] ∧ w = []) →
      splitWsGo (w ++ ' ' :: rest) cur = (cur.reverse ++ w) :: splitWsGo rest [] := by
  induction w with
  | nil =>
    intro cur hne
    have hc : cur ≠ [] := fun h => hne ⟨h, rfl⟩
    simp [splitWsGo, isPyWs, hc]
  | cons c cs ih =>
    intro cur _
    have hc : isPyWs c = false := hw c (by simp)
    rw [List.cons_append, splitWsGo]
    simp only [hc, Bool.false_eq_true, if_false]
    rw [ih (fun d hd => hw d (by simp [hd])) (c :: cur) (by simp)]
    simp

/-- `str.split()` peels off a maximal non-whitespace token before a space. -/
theorem splitWs_append (w rest : List Char) (hne : w ≠ [])
    (hw : ∀ c ∈ w, isPyWs c = false) :
    pySplitWs (w ++ ' ' :: rest) = w :: pySplitWs rest := by
  unfold pySplitWs
  rw [splitWsGo_append w rest hw [] (by simp [hne])]
  simp

/-- `str.split()` of a single whitespace-free token. -/
theorem splitWs_single (w : List Char) (hne : w ≠ [])
    (hw : ∀ c ∈ w, isPyWs c = false) :
    pySplitWs w = [w] := by
  unfold pySplitWs
  rw [splitWsGo_noWs w hw [] (by simp [hne])]
  simp

theorem listQuit_getElem (ds : List DriverSt) : ∀ i : Nat,
    (listQuit ds i)[i]? = ds[i]?.map (fun d => { d with alive := false }) := by
  induction ds with
  | nil => intro i; simp [listQuit]
  | cons d ds ih =>
    intro i
    cases i with
    | zero => simp [listQuit]
    | succ n => simpa [listQuit] using ih n

/-- After `quit`, the liveness check on that handle fails. -/
theorem quit_not_alive (w : World) (i : Nat) :
    driverAlive (quitDriver w i) i = false := by
  unfold driverAlive quitDriver
  rw [listQuit_getElem]
  cases w.drivers[i]? <;> simp

/-- The `finally` clause of `run_runbook`: whatever the loop outcome, a
still-set `current_runbook_driver` is quit, as the final event of the
trace, and is dead in the final world. -/
theorem run_runbook_finally (o : Oracle) (lines : List (List Char))
    (w : World) (ag : Agent) (i : Nat)
    (h : (runbookLoop o (numberFrom 1 lines)
            { world := w, agent := ag, rbDriver := none, stepLabel := none }).2.1.rbDriver
         = some i) :
    (run_runbook o lines w ag).2.2 =
      (runbookLoop o (numberFrom 1 lines)
        { world := w, agent := ag, rbDriver := none, stepLabel := none }).2.2 ++
      [Event.quitDrv i] ∧
    driverAlive (run_runbook o lines w ag).2.1.world i = false ∧
    (run_runbook o lines w ag).1 =
      (runbookLoop o (numberFrom 1 lines)
        { world := w, agent := ag, rbDriver := none, stepLabel := none }).1 := by
  rcases hL : runbookLoop o (numberFrom 1 lines)
      { world := w, agent := ag, rbDriver := none, stepLabel := none } with ⟨r, st, tr⟩
  rw [hL] at h
  simp only at h
  simp only [run_runbook, hL]
  simp [h, quit_not_alive]

/-- A raised error aborts the rest of the runbook: the loop result is the
failing line's result, and no event of any later line is emitted. -/
theorem runbookLoop_abort (o : Oracle) (n : Nat) (raw : List Char)
    (rest : List (Nat × List Char)) (st : RunState) (e : AgentErr)
    (st' : RunState) (tr : List Event)
    (h : processLine o n raw st = (.error e, st', tr)) :
    runbookLoop o ((n, raw) :: rest) st = (.error e, st', tr) := by
  simp [runbookLoop, h]

/-! ### Claim theorems -/

/-- C2: In scenario A, the spec's "ensure driver on a loaded page" policy
does not fire: `get_text` in Step2 acquires a second, fresh driver
(`acquire 1`), but — because the liveness check runs only after
`_get_instance_driver` has already replaced the dead driver with a live
blank one — the remembered URL is never reloaded on it (`navigate 1` is
absent from the trace), no element is ever found on it, and the runbook
fails with a wrapped `TextExtractionError` instead of extracting the text
of `h1` on a freshly reloaded page. -/
theorem scenarioA_no_reload :
    (run_runbook oracleA scenarioALines w0 ag0).1 =
      .error (AgentErr.runbookE
        "Error in action 'get_text' (step: Step2, line: 4): Error getting text using selector 'h1': NoSuchElementException".data) ∧
    Event.acquire 1 ∈ (run_runbook oracleA scenarioALines w0 ag0).2.2 ∧
    Event.navigate 1 "http://example.com".data ∉
      (run_runbook oracleA scenarioALines w0 ag0).2.2 ∧
    Event.findEl 1 "h1".data ∉ (run_runbook oracleA scenarioALines w0 ag0).2.2 := by
  refine ⟨by decide, by decide, by decide, by decide⟩

/-- C4 counterexample: for the unknown-action failure of scenario B the
`RunbookError` message contains the action name and the 1-based line
number but not the step label (`Step1`), although a step label was
current; the claim that every interpreter-level failure message includes
the step label is therefore false. -/
theorem unknown_action_cex :
    (run_runbook oracleA scenarioBLines w0 ag0).1 =
      .error (AgentErr.runbookE
        "Unknown action 'unknown_action' in runbook at line 2.".data) ∧
    (run_runbook oracleA scenarioBLines w0 ag0).2.1.stepLabel = some "Step1".data ∧
    pyContains "Step1".data
      "Unknown action 'unknown_action' in runbook at line 2.".data = false := by
  refine ⟨by decide, by decide, by decide⟩

/-- C5 counterexample: a driver acquired lazily inside `get_text` while
the runbook's driver slot was absent (`acquire 0`) is never quit by the
end of a successfully completed `run_runbook`: it is still alive in the
final world, so not every acquiring code path of a run reaches a release
by the end of the run. -/
theorem lazy_driver_leak_cex :
    (run_runbook oracleA leakLines w0 ag0).1 = .ok () ∧
    Event.acquire 0 ∈ (run_runbook oracleA leakLines w0 ag0).2.2 ∧
    Event.quitDrv 0 ∉ (run_runbook oracleA leakLines w0 ag0).2.2 ∧
    driverAlive (run_runbook oracleA leakLines w0 ag0).2.1.world 0 = true := by
  refine ⟨by decide, by decide, by decide, by decide⟩

/-- C6 counterexample: the line `:see ACTION: notes:` contains the
substring `ACTION:` yet is classified as a step label, not an action
line; moreover its label has its leading colon stripped as well, so the
label is not "the line with its trailing colon stripped and otherwise
unchanged". -/
theorem action_marker_cex :
    pyContains "ACTION:".data ":see ACTION: notes:".data = true ∧
    classifyLine ":see ACTION: notes:".data = LineKind.step "see ACTION: notes".data ∧
    "see ACTION: notes".data ≠ ":see ACTION: notes".data := by
  refine ⟨by decide, by decide, by decide⟩

/-- C3 counterexample: on `name k1="a b" k2=c` the parser whitespace-splits
before looking at quotes, so `k1` is bound to `"a` (opening quote kept,
`b"` discarded as a token without `=`) rather than to `a b`. -/
theorem parse_quoted_space_cex :
    _parse_action_line "name k1=\"a b\" k2=c".data =
      some ("name".data, [("k1".data, "\"a".data), ("k2".data, "c".data)]) ∧
    lookupKV [("k1".data, "\"a".data), ("k2".data, "c".data)] "k1".data ≠
      some "a b".data := by
  refine ⟨by decide, by decide⟩

/-- C7: `close` is idempotent and total: with a session present it quits
exactly that session (which then fails the liveness check), clears the
driver slot and the cached `current_url`, and a second call in a row is a
no-op that — like the first, whose `except WebDriverException` arm only
logs — never raises (`close` is modelled as a total function for exactly
that reason). -/
theorem close_idempotent_spec :
    ∀ (w : World) (ag : Agent) (i : Nat), ag.driver = some i →
      close w ag =
        (quitDriver w i, { driver := none, current_url := none }, [Event.quitDrv i]) ∧
      driverAlive (quitDriver w i) i = false ∧
      close (quitDriver w i) { driver := none, current_url := none } =
        (quitDriver w i, { driver := none, current_url := none }, []) := by
  intro w ag i h
  refine ⟨by simp [close, h], quit_not_alive w i, by simp [close]⟩

/-- C7 witness: releasing an agent holding the single live session of the
world, then releasing again. -/
theorem close_idempotent_spec_witness :
    (Agent.mk (some 0) (some "http://example.com".data)).driver = some 0 ∧
    (close (World.mk [{ alive := true, page := none }])
        (Agent.mk (some 0) (some "http://example.com".data)) =
      (quitDriver (World.mk [{ alive := true, page := none }]) 0,
       { driver := none, current_url := none }, [Event.quitDrv 0]) ∧
     driverAlive (quitDriver (World.mk [{ alive := true, page := none }]) 0) 0 = false ∧
     close (quitDriver (World.mk [{ alive := true, page := none }]) 0)
        { driver := none, current_url := none } =
      (quitDriver (World.mk [{ alive := true, page := none }]) 0,
       { driver := none, current_url := none }, [])) :=
  ⟨rfl, close_idempotent_spec (World.mk [{ alive := true, page := none }])
    (Agent.mk (some 0) (some "http://example.com".data)) 0 rfl⟩

/-- C8: `run_cli` hands the command to the subprocess runner with the
300-second bound; a non-zero exit code raises `CLICommandError` whose
message contains the exit code and the stderr text, and exceeding the
timeout raises `CLICommandError` as well. -/
theorem run_cli_error_spec :
    (∀ (o : Oracle) (cmd : List Char) (rc : Int) (out err : List Char),
      o.cli cmd 300 = CliOutcome.completed rc out err → rc ≠ 0 →
      run_cli o cmd =
        (.error (AgentErr.cliE
          ("Command '".data ++ cmd ++ "' failed with return code ".data ++ intStr rc ++
           "\nStderr: ".data ++ err)), [Event.cliRun cmd]) ∧
      (∃ s t, s ++ intStr rc ++ t =
        "Command '".data ++ cmd ++ "' failed with return code ".data ++ intStr rc ++
        "\nStderr: ".data ++ err) ∧
      (∃ s t, s ++ err ++ t =
        "Command '".data ++ cmd ++ "' failed with return code ".data ++ intStr rc ++
        "\nStderr: ".data ++ err)) ∧
    (∀ (o : Oracle) (cmd : List Char), o.cli cmd 300 = CliOutcome.timedOut →
      run_cli o cmd =
        (.error (AgentErr.cliE ("Command '".data ++ cmd ++ "' timed out.".data)),
         [Event.cliRun cmd])) := by
  constructor
  · intro o cmd rc out err hcli hrc
    refine ⟨by simp [run_cli, hcli, hrc], ?_, ?_⟩
    · exact ⟨"Command '".data ++ cmd ++ "' failed with return code ".data,
        "\nStderr: ".data ++ err, by simp⟩
    · exact ⟨"Command '".data ++ cmd ++ "' failed with return code ".data ++ intStr rc ++
        "\nStderr: ".data, [], by simp⟩
  · intro o cmd hcli
    simp [run_cli, hcli]

/-- C8 witness: a failing command and a timed-out command. -/
theorem run_cli_error_spec_witness :
    (oracleCliFail.cli "bad".data 300 = CliOutcome.completed 2 [] "boom".data ∧
     (2 : Int) ≠ 0 ∧
     run_cli oracleCliFail "bad".data =
       (.error (AgentErr.cliE
         ("Command '".data ++ "bad".data ++ "' failed with return code ".data ++
          intStr 2 ++ "\nStderr: ".data ++ "boom".data)), [Event.cliRun "bad".data])) ∧
    (oracleCliFail.cli "sleep 1000".data 300 = CliOutcome.timedOut ∧
     run_cli oracleCliFail "sleep 1000".data =
       (.error (AgentErr.cliE
         ("Command '".data ++ "sleep 1000".data ++ "' timed out.".data)),
        [Event.cliRun "sleep 1000".data])) :=
  ⟨⟨by decide, by decide,
    (run_cli_error_spec.1 oracleCliFail "bad".data 2 [] "boom".data
      (by decide) (by decide)).1⟩,
   ⟨by decide,
    run_cli_error_spec.2 oracleCliFail "sleep 1000".data (by decide)⟩⟩

/-- C9: the `cli` handler leaves the world (hence every driver session)
and the agent state untouched and, on success, returns the passed-in
driver handle unchanged; consequently in scenario C — two consecutive
`cli` actions in one step entered with no driver handle — the handle
stays absent throughout and no driver session is ever created. -/
theorem cli_frame_spec :
    (∀ (o : Oracle) (params : Params) (cur : Option Nat) (w : World) (ag : Agent),
      (_handle_cli o params cur w ag).2.1 = w ∧
      (_handle_cli o params cur w ag).2.2.1 = ag ∧
      ∀ x, (_handle_cli o params cur w ag).1 = .ok x → x = cur) ∧
    run_runbook oracleA scenarioCLines w0 ag0 =
      (.ok (),
       { world := w0, agent := ag0, rbDriver := none, stepLabel := some "StepC".data },
       [Event.stepStart "StepC".data, Event.dispatch "cli".data 2,
        Event.cliRun "ls".data, Event.dispatch "cli".data 3,
        Event.cliRun "pwd".data]) := by
  constructor
  · intro o params cur w ag
    unfold _handle_cli
    cases hb : (!pyTruthyOpt (lookupKV params "command".data))
    · rcases hr : run_cli o ((lookupKV params "command".data).getD []) with ⟨r, ev⟩
      cases r <;> simp [hb, hr]
    · simp [hb]
  · decide

/-- C9 witness: a `cli` invocation with a concrete command and no handle. -/
theorem cli_frame_spec_witness :
    (_handle_cli oracleA [("command".data, "ls".data)] none w0 ag0).1 =
      .ok (none : Option Nat) ∧ (none : Option Nat) = none :=
  ⟨by decide,
   (cli_frame_spec.1 oracleA [("command".data, "ls".data)] none w0 ag0).2.2 none
     (by decide)⟩

/-- C1: processing a step-label line while a runbook driver handle is
active emits exactly the step start followed by exactly one `quit` of
that handle — and no dispatch — before any action of the new step can
run, leaving the runbook driver slot empty; and whatever the outcome of
the loop (normal completion or raised error), a runbook driver handle
still active at its end is quit by the `finally` clause as the last event
of the run, after which it is dead. -/
theorem step_boundary_release :
    (∀ (o : Oracle) (st : RunState) (n : Nat) (raw lbl : List Char) (i : Nat),
      classifyLine raw = LineKind.step lbl → st.rbDriver = some i →
      processLine o n raw st =
        (.ok (),
         { world := quitDriver st.world i, agent := st.agent,
           rbDriver := none, stepLabel := some lbl },
         [Event.stepStart lbl, Event.quitDrv i])) ∧
    (∀ (o : Oracle) (lines : List (List Char)) (w : World) (ag : Agent) (i : Nat),
      (runbookLoop o (numberFrom 1 lines)
        { world := w, agent := ag, rbDriver := none, stepLabel := none }).2.1.rbDriver
        = some i →
      (run_runbook o lines w ag).2.2 =
        (runbookLoop o (numberFrom 1 lines)
          { world := w, agent := ag, rbDriver := none, stepLabel := none }).2.2 ++
        [Event.quitDrv i] ∧
      driverAlive (run_runbook o lines w ag).2.1.world i = false) := by
  constructor
  · intro o st n raw lbl i hcl hrb
    simp [processLine, hcl, hrb]
  · intro o lines w ag i h
    exact ⟨(run_runbook_finally o lines w ag i h).1,
           (run_runbook_finally o lines w ag i h).2.1⟩

/-- C1 witness: the `Step2:` boundary of a mid-run state holding handle 0,
and the final cleanup of a runbook whose only step leaves its driver
active. -/
theorem step_boundary_release_witness :
    (classifyLine "Step2:".data = LineKind.step "Step2".data ∧
     stBoundary.rbDriver = some 0 ∧
     processLine oracleA 3 "Step2:".data stBoundary =
       (.ok (),
        { world := quitDriver stBoundary.world 0, agent := stBoundary.agent,
          rbDriver := none, stepLabel := some "Step2".data },
        [Event.stepStart "Step2".data, Event.quitDrv 0])) ∧
    ((runbookLoop oracleA (numberFrom 1 goLines)
        { world := w0, agent := ag0, rbDriver := none, stepLabel := none }).2.1.rbDriver
        = some 0 ∧
     (run_runbook oracleA goLines w0 ag0).2.2 =
       (runbookLoop oracleA (numberFrom 1 goLines)
         { world := w0, agent := ag0, rbDriver := none, stepLabel := none }).2.2 ++
       [Event.quitDrv 0] ∧
     driverAlive (run_runbook oracleA goLines w0 ag0).2.1.world 0 = false) :=
  ⟨⟨by decide, rfl,
    step_boundary_release.1 oracleA stBoundary 3 "Step2:".data "Step2".data 0
      (by decide) rfl⟩,
   ⟨by decide,
    step_boundary_release.2 oracleA goLines w0 ag0 0 (by decide)⟩⟩

/-- A line starting with the marker behind any fixed indentation contains
the marker. -/
theorem contains_of_starts (pre s : List Char)
    (h : pyStartsWith (pre ++ "ACTION:".data) s = true) :
    pyContains "ACTION:".data s = true := by
  rw [pyStartsWith_iff] at h
  obtain ⟨t, ht⟩ := h
  rw [pyContains_iff]
  exact ⟨pre, t, ht⟩

/-- C10: every stripped non-blank, non-comment line is classified as a
step label or as an action line; the "malformed line" warning branch of
the loop is unreachable, so no such line is ever silently skipped. -/
theorem no_malformed_line_spec :
    ∀ raw : List Char, pyStrip raw ≠ [] →
      pyStartsWith "#".data (pyStrip raw) = false →
      ((∃ lbl, classifyLine raw = LineKind.step lbl) ∨
       (∃ rest, classifyLine raw = LineKind.action rest)) ∧
      classifyLine raw ≠ LineKind.malformed := by
  intro raw h0 h1
  cases hA : pyStartsWith "ACTION:".data (pyStrip raw) with
  | true =>
    have hcont : pyContains "ACTION:".data (pyStrip raw) = true :=
      contains_of_starts [] _ (by simpa using hA)
    have hcl : classifyLine raw =
        LineKind.action (pyStrip (afterFirstSub "ACTION:".data (pyStrip raw))) := by
      simp [classifyLine, h0, h1, hA, hcont]
    exact ⟨Or.inr ⟨_, hcl⟩, by simp [hcl]⟩
  | false =>
    cases hB : pyStartsWith "    ACTION:".data (pyStrip raw) with
    | true =>
      have hcont : pyContains "ACTION:".data (pyStrip raw) = true :=
        contains_of_starts "    ".data _ (by
          have e : "    ".data ++ "ACTION:".data = "    ACTION:".data := by decide
          rw [e]; exact hB)
      have hcl : classifyLine raw =
          LineKind.action (pyStrip (afterFirstSub "ACTION:".data (pyStrip raw))) := by
        simp [classifyLine, h0, h1, hA, hB, hcont]
      exact ⟨Or.inr ⟨_, hcl⟩, by simp [hcl]⟩
    | false =>
      cases hC : pyStartsWith "  ACTION:".data (pyStrip raw) with
      | true =>
        have hcont : pyContains "ACTION:".data (pyStrip raw) = true :=
          contains_of_starts "  ".data _ (by
            have e : "  ".data ++ "ACTION:".data = "  ACTION:".data := by decide
            rw [e]; exact hC)
        have hcl : classifyLine raw =
            LineKind.action (pyStrip (afterFirstSub "ACTION:".data (pyStrip raw))) := by
          simp [classifyLine, h0, h1, hA, hB, hC, hcont]
        exact ⟨Or.inr ⟨_, hcl⟩, by simp [hcl]⟩
      | false =>
        have hcl : classifyLine raw = LineKind.step (stripColons (pyStrip raw)) := by
          simp [classifyLine, h0, h1, hA, hB, hC]
        exact ⟨Or.inl ⟨_, hcl⟩, by simp [hcl]⟩

/-- C10 witness: a plain step-label line. -/
theorem no_malformed_line_spec_witness :
    pyStrip "Step1:".data ≠ [] ∧
    pyStartsWith "#".data (pyStrip "Step1:".data) = false ∧
    (((∃ lbl, classifyLine "Step1:".data = LineKind.step lbl) ∨
      (∃ rest, classifyLine "Step1:".data = LineKind.action rest)) ∧
     classifyLine "Step1:".data ≠ LineKind.malformed) :=
  ⟨by decide, by decide,
   no_malformed_line_spec "Step1:".data (by decide) (by decide)⟩

/-- C6 (amended): after stripping (so indentation of any width is
tolerated), a non-blank, non-comment line is an action line if and only
if its stripped form starts with `ACTION:` — merely containing the
marker is not enough — and every other such line begins a step whose
label is the stripped line with all leading and trailing colons
removed. -/
theorem action_marker_spec :
    ∀ raw : List Char, pyStrip raw ≠ [] →
      pyStartsWith "#".data (pyStrip raw) = false →
      ((∃ rest, classifyLine raw = LineKind.action rest) ↔
        pyStartsWith "ACTION:".data (pyStrip raw) = true) ∧
      (pyStartsWith "ACTION:".data (pyStrip raw) = false →
        classifyLine raw = LineKind.step (stripColons (pyStrip raw))) := by
  intro raw h0 h1
  have hex : ∃ c cr, pyStrip raw = c :: cr := by
    cases hvar : pyStrip raw with
    | nil => exact absurd hvar h0
    | cons c cr => exact ⟨c, cr, rfl⟩
  obtain ⟨c, cr, hs⟩ := hex
  have hcw : isPyWs c = false := pyStrip_head_not_ws raw c cr hs
  have hcsp : ¬(' ' = c) := by
    intro h
    rw [← h] at hcw
    simp [isPyWs] at hcw
  have hB : pyStartsWith "    ACTION:".data (pyStrip raw) = false := by
    rw [hs]
    have e : "    ACTION:".data = ' ' :: "   ACTION:".data := by decide
    rw [e]
    simp [pyStartsWith, hcsp]
  have hC : pyStartsWith "  ACTION:".data (pyStrip raw) = false := by
    rw [hs]
    have e : "  ACTION:".data = ' ' :: " ACTION:".data := by decide
    rw [e]
    simp [pyStartsWith, hcsp]
  have hstep : pyStartsWith "ACTION:".data (pyStrip raw) = false →
      classifyLine raw = LineKind.step (stripColons (pyStrip raw)) := by
    intro hA
    simp [classifyLine, h0, h1, hA, hB, hC]
  refine ⟨⟨?_, ?_⟩, hstep⟩
  · rintro ⟨rest, hcl⟩
    cases hx : pyStartsWith "ACTION:".data (pyStrip raw) with
    | true => rfl
    | false =>
      rw [hstep hx] at hcl
      cases hcl
  · intro hA
    have hcont : pyContains "ACTION:".data (pyStrip raw) = true :=
      contains_of_starts [] _ (by simpa using hA)
    exact ⟨pyStrip (afterFirstSub "ACTION:".data (pyStrip raw)),
      by simp [classifyLine, h0, h1, hA, hcont]⟩

/-- C6 witness: an indented action line and a labelled step line with a
trailing colon. -/
theorem action_marker_spec_witness :
    (pyStrip "  ACTION: cli command=ls".data ≠ [] ∧
     pyStartsWith "#".data (pyStrip "  ACTION: cli command=ls".data) = false ∧
     ((∃ rest, classifyLine "  ACTION: cli command=ls".data = LineKind.action rest) ↔
       pyStartsWith "ACTION:".data (pyStrip "  ACTION: cli command=ls".data) = true)) ∧
    (pyStrip "Step one:".data ≠ [] ∧
     pyStartsWith "#".data (pyStrip "Step one:".data) = false ∧
     pyStartsWith "ACTION:".data (pyStrip "Step one:".data) = false ∧
     classifyLine "Step one:".data =
       LineKind.step (stripColons (pyStrip "Step one:".data))) :=
  ⟨⟨by decide, by decide,
    (action_marker_spec "  ACTION: cli command=ls".data (by decide) (by decide)).1⟩,
   ⟨by decide, by decide, by decide,
    (action_marker_spec "Step one:".data (by decide) (by decide)).2 (by decide)⟩⟩

/-- C4 (amended): a handler failure makes `run_runbook` raise
`RunbookError` whose message contains the action name, the current step
label and the 1-based line number; an action name outside the closed
handler vocabulary makes it raise `RunbookError` whose message contains
the action name and the 1-based line number (the step label is absent
from that message, witness the counterexample); and any raised error
aborts the loop, so no event — in particular no dispatch — of any later
line is emitted. -/
theorem runbook_error_message_spec :
    (∀ (o : Oracle) (st : RunState) (n : Nat) (raw rest name : List Char)
       (params : Params) (e : AgentErr) (w' : World) (ag' : Agent) (ev : List Event),
      classifyLine raw = LineKind.action rest →
      _parse_action_line rest = some (name, params) →
      isHandlerName name = true →
      callHandler o name params st.rbDriver st.world st.agent = (.error e, w', ag', ev) →
      processLine o n raw st =
        (.error (AgentErr.runbookE (wrapMsg name st.stepLabel n e.msg)),
         { world := w', agent := ag', rbDriver := st.rbDriver,
           stepLabel := st.stepLabel },
         Event.dispatch name n :: ev) ∧
      (∃ s t, s ++ name ++ t = wrapMsg name st.stepLabel n e.msg) ∧
      (∃ s t, s ++ natStr n ++ t = wrapMsg name st.stepLabel n e.msg) ∧
      (∀ lbl, st.stepLabel = some lbl →
        ∃ s t, s ++ lbl ++ t = wrapMsg name st.stepLabel n e.msg)) ∧
    (∀ (o : Oracle) (st : RunState) (n : Nat) (raw rest name : List Char)
       (params : Params),
      classifyLine raw = LineKind.action rest →
      _parse_action_line rest = some (name, params) →
      isHandlerName name = false →
      processLine o n raw st = (.error (AgentErr.runbookE (unknownMsg name n)), st, []) ∧
      (∃ s t, s ++ name ++ t = unknownMsg name n) ∧
      (∃ s t, s ++ natStr n ++ t = unknownMsg name n)) ∧
    (∀ (o : Oracle) (n : Nat) (raw : List Char) (restL : List (Nat × List Char))
       (st : RunState) (e : AgentErr) (st' : RunState) (tr : List Event),
      processLine o n raw st = (.error e, st', tr) →
      runbookLoop o ((n, raw) :: restL) st = (.error e, st', tr)) := by
  refine ⟨?_, ?_, ?_⟩
  · intro o st n raw rest name params e w' ag' ev h1 h2 h3 h4
    refine ⟨by simp [processLine, h1, h2, h3, h4], ?_, ?_, ?_⟩
    · exact ⟨"Error in action '".data,
        "' (step: ".data ++ labelStr st.stepLabel ++ ", line: ".data ++ natStr n ++
          "): ".data ++ e.msg,
        by simp [wrapMsg, List.append_assoc]⟩
    · exact ⟨"Error in action '".data ++ name ++ "' (step: ".data ++
          labelStr st.stepLabel ++ ", line: ".data,
        "): ".data ++ e.msg, by simp [wrapMsg, List.append_assoc]⟩
    · intro lbl hl
      exact ⟨"Error in action '".data ++ name ++ "' (step: ".data,
        ", line: ".data ++ natStr n ++ "): ".data ++ e.msg,
        by simp [wrapMsg, labelStr, hl, List.append_assoc]⟩
  · intro o st n raw rest name params h1 h2 h3
    refine ⟨by simp [processLine, h1, h2, h3], ?_, ?_⟩
    · exact ⟨"Unknown action '".data, "' in runbook at line ".data ++ natStr n ++ ".".data,
        by simp [unknownMsg, List.append_assoc]⟩
    · exact ⟨"Unknown action '".data ++ name ++ "' in runbook at line ".data, ".".data,
        by simp [unknownMsg, List.append_assoc]⟩
  · exact fun o n raw restL st e st' tr h => runbookLoop_abort o n raw restL st e st' tr h

/-- C4 witness: a `cli` action missing its `command` parameter (handler
failure), an unknown action, and the abort of a two-line remainder. -/
theorem runbook_error_message_spec_witness :
    (classifyLine "  ACTION: cli x=1".data = LineKind.action "cli x=1".data ∧
     _parse_action_line "cli x=1".data =
       some ("cli".data, [("x".data, "1".data)]) ∧
     isHandlerName "cli".data = true ∧
     callHandler oracleA "cli".data [("x".data, "1".data)] none w0 ag0 =
       (.error (AgentErr.runbookE "cli action missing 'command'.".data), w0, ag0, []) ∧
     processLine oracleA 2 "  ACTION: cli x=1".data stLabelled =
       (.error (AgentErr.runbookE
          (wrapMsg "cli".data (some "S".data) 2
            "cli action missing 'command'.".data)),
        { world := w0, agent := ag0, rbDriver := none, stepLabel := some "S".data },
        [Event.dispatch "cli".data 2]) ∧
     (∃ s t, s ++ "S".data ++ t =
        wrapMsg "cli".data (some "S".data) 2 "cli action missing 'command'.".data)) ∧
    (processLine oracleA 2 "  ACTION: unknown_action x=1".data stLabelled =
       (.error (AgentErr.runbookE (unknownMsg "unknown_action".data 2)), stLabelled, []) ∧
     runbookLoop oracleA
        [(2, "  ACTION: unknown_action x=1".data), (3, "  ACTION: cli command=ls".data)]
        stLabelled =
       (.error (AgentErr.runbookE (unknownMsg "unknown_action".data 2)), stLabelled, [])) := by
  have h1 := runbook_error_message_spec.1 oracleA stLabelled 2 "  ACTION: cli x=1".data
    "cli x=1".data "cli".data [("x".data, "1".data)]
    (AgentErr.runbookE "cli action missing 'command'.".data) w0 ag0 []
    (by decide) (by decide) (by decide) (by decide)
  have h2 := runbook_error_message_spec.2.1 oracleA stLabelled 2
    "  ACTION: unknown_action x=1".data "unknown_action x=1".data
    "unknown_action".data [("x".data, "1".data)] (by decide) (by decide) (by decide)
  refine ⟨⟨by decide, by decide, by decide, by decide, h1.1, h1.2.2.2 "S".data rfl⟩,
    ⟨h2.1, ?_⟩⟩
  exact runbook_error_message_spec.2.2 oracleA 2 "  ACTION: unknown_action x=1".data
    [(3, "  ACTION: cli command=ls".data)] stLabelled
    (AgentErr.runbookE (unknownMsg "unknown_action".data 2)) stLabelled [] h2.1

/-- C5 (amended): the runbook-owned handle is always released by the end
of the run (by the step boundaries and the `finally` clause); but a
driver acquired lazily inside a handler that was entered with no current
handle lands in the agent's instance slot, not in the runbook slot, and
survives `run_runbook`: after the leaking run it is still the live
instance driver, and only a subsequent explicit `close` on the agent
releases it. -/
theorem lazy_driver_instance_slot_spec :
    ((run_runbook oracleA leakLines w0 ag0).2.1.agent.driver = some 0 ∧
     driverAlive (run_runbook oracleA leakLines w0 ag0).2.1.world 0 = true ∧
     close (run_runbook oracleA leakLines w0 ag0).2.1.world
        (run_runbook oracleA leakLines w0 ag0).2.1.agent =
       (quitDriver (run_runbook oracleA leakLines w0 ag0).2.1.world 0,
        { driver := none, current_url := none }, [Event.quitDrv 0]) ∧
     driverAlive (quitDriver (run_runbook oracleA leakLines w0 ag0).2.1.world 0) 0
       = false) ∧
    (∀ (o : Oracle) (lines : List (List Char)) (w : World) (ag : Agent) (i : Nat),
      (runbookLoop o (numberFrom 1 lines)
        { world := w, agent := ag, rbDriver := none, stepLabel := none }).2.1.rbDriver
        = some i →
      (run_runbook o lines w ag).2.2 =
        (runbookLoop o (numberFrom 1 lines)
          { world := w, agent := ag, rbDriver := none, stepLabel := none }).2.2 ++
        [Event.quitDrv i] ∧
      driverAlive (run_runbook o lines w ag).2.1.world i = false) := by
  refine ⟨⟨by decide, by decide, by decide, by decide⟩, ?_⟩
  intro o lines w ag i h
  exact ⟨(run_runbook_finally o lines w ag i h).1,
         (run_runbook_finally o lines w ag i h).2.1⟩

/-- C5 witness: the runbook of `goLines` ends its loop with handle 0
active, and the cleanup quits it. -/
theorem lazy_driver_instance_slot_spec_witness :
    (runbookLoop oracleA (numberFrom 1 goLines)
      { world := w0, agent := ag0, rbDriver := none, stepLabel := none }).2.1.rbDriver
      = some 0 ∧
    ((run_runbook oracleA goLines w0 ag0).2.2 =
      (runbookLoop oracleA (numberFrom 1 goLines)
        { world := w0, agent := ag0, rbDriver := none, stepLabel := none }).2.2 ++
      [Event.quitDrv 0] ∧
     driverAlive (run_runbook oracleA goLines w0 ag0).2.1.world 0 = false) :=
  ⟨by decide, lazy_driver_instance_slot_spec.2 oracleA goLines w0 ag0 0 (by decide)⟩

theorem takeWhile_all_cons_false (p : Char → Bool) (k : List Char) (x : Char)
    (rest : List Char) (hk : ∀ c ∈ k, p c = true) (hx : p x = false) :
    (k ++ x :: rest).takeWhile p = k := by
  induction k with
  | nil => simp [List.takeWhile_cons, hx]
  | cons c cs ih =>
    have hc : p c = true := hk c (by simp)
    simp only [List.cons_append, List.takeWhile_cons, hc]
    simp [ih fun d hd => hk d (by simp [hd])]

theorem takeWhile_ne_eq (k rest : List Char) (hk : '=' ∉ k) :
    (k ++ '=' :: rest).takeWhile (fun c => c ≠ '=') = k := by
  apply takeWhile_all_cons_false
  · intro c hc
    have : c ≠ '=' := fun h => hk (h ▸ hc)
    simpa using this
  · simp

theorem drop_key (k rest : List Char) :
    (k ++ '=' :: rest).drop (k.length + 1) = rest := by
  induction k with
  | nil => simp
  | cons c cs ih => simp [ih]

/-- A `key=value` token with `=`-free key updates the mapping with the
quote-stripped value. -/
theorem tokenToKV_eq (ps : Params) (k rest : List Char) (hk : '=' ∉ k) :
    tokenToKV ps (k ++ '=' :: rest) = insertKV ps k (stripQuotes rest) := by
  have hcont : pyContains ['='] (k ++ '=' :: rest) = true := by
    rw [pyContains_iff]
    exact ⟨k, rest, by simp⟩
  unfold tokenToKV
  rw [hcont]
  simp only [if_true]
  rw [takeWhile_ne_eq k rest hk, drop_key k rest]

/-- A token without `=` is ignored. -/
theorem tokenToKV_skip (ps : Params) (tok : List Char) (h : '=' ∉ tok) :
    tokenToKV ps tok = ps := by
  have hcont : pyContains ['='] tok = false := by
    cases hx : pyContains ['='] tok with
    | false => rfl
    | true =>
      rw [pyContains_iff] at hx
      obtain ⟨s, t, ht⟩ := hx
      exact absurd (by rw [← ht]; simp) h
  simp [tokenToKV, hcont]

/-- Values wrapped in double quotes have the quotes stripped. -/
theorem stripQuotes_dq (v : List Char) : stripQuotes (dq :: v ++ [dq]) = v := by
  have hlast : (dq :: v ++ [dq]).getLast? = some dq := by
    have e : dq :: v ++ [dq] = (dq :: v) ++ [dq] := by simp
    rw [e, List.getLast?_concat]
  unfold stripQuotes
  rw [hlast]
  simp [pyStartsWith, List.dropLast_concat]

/-- Values not wrapped in quotes are kept as they are. -/
theorem stripQuotes_plain (v : List Char) (hne : v ≠ []) (hdq : dq ∉ v)
    (hsq : sq ∉ v) : stripQuotes v = v := by
  cases v with
  | nil => exact absurd rfl hne
  | cons c cs =>
    have h1 : ¬(dq = c) := fun h => hdq (by simp [← h])
    have h2 : ¬(sq = c) := fun h => hsq (by simp [← h])
    simp [stripQuotes, pyStartsWith, h1, h2]

/-- C3 (amended): for an action line `name k1="v1" junk k2=v2` whose
tokens are whitespace-free — whitespace splits tokens before quotes are
examined, witness the counterexample — the parser returns the first
token as the action name, strips the matching double quotes of `v1`,
ignores the `=`-less token `junk` without error, and keeps the unquoted
`v2` as is. -/
theorem parse_action_line_spec :
    ∀ (name k1 v1 junk k2 v2 : List Char),
      name ≠ [] → (∀ c ∈ name, isPyWs c = false) →
      k1 ≠ [] → (∀ c ∈ k1, isPyWs c = false) → '=' ∉ k1 →
      (∀ c ∈ v1, isPyWs c = false) →
      junk ≠ [] → (∀ c ∈ junk, isPyWs c = false) → '=' ∉ junk →
      k2 ≠ [] → (∀ c ∈ k2, isPyWs c = false) → '=' ∉ k2 → k1 ≠ k2 →
      v2 ≠ [] → (∀ c ∈ v2, isPyWs c = false) → dq ∉ v2 → sq ∉ v2 →
      _parse_action_line
        (name ++ ' ' ::
          ((k1 ++ '=' :: dq :: v1 ++ [dq]) ++ ' ' :: (junk ++ ' ' :: (k2 ++ '=' :: v2))))
        = some (name, [(k1, v1), (k2, v2)]) := by
  intro name k1 v1 junk k2 v2 hnN hwN hnK1 hwK1 heK1 hwV1 hnJ hwJ heJ hnK2 hwK2 heK2
    hK12 hnV2 hwV2 hdqV2 hsqV2
  have hwdq : isPyWs dq = false := by decide
  have hweq : isPyWs '=' = false := by decide
  have ht1ne : k1 ++ '=' :: dq :: v1 ++ [dq] ≠ [] := by
    cases k1 <;> simp
  have ht1w : ∀ c ∈ k1 ++ '=' :: dq :: v1 ++ [dq], isPyWs c = false := by
    intro c hc
    rcases List.mem_append.mp hc with h | h
    · rcases List.mem_append.mp h with h | h
      · exact hwK1 c h
      · rcases List.mem_cons.mp h with h | h
        · rw [h]; exact hweq
        · rcases List.mem_cons.mp h with h | h
          · rw [h]; exact hwdq
          · exact hwV1 c h
    · rw [List.mem_singleton.mp h]; exact hwdq
  have ht2ne : k2 ++ '=' :: v2 ≠ [] := by cases k2 <;> simp
  have ht2w : ∀ c ∈ k2 ++ '=' :: v2, isPyWs c = false := by
    intro c hc
    rcases List.mem_append.mp hc with h | h
    · exact hwK2 c h
    · rcases List.mem_cons.mp h with h | h
      · rw [h]; exact hweq
      · exact hwV2 c h
  have hsplit : pySplitWs
      (name ++ ' ' ::
        ((k1 ++ '=' :: dq :: v1 ++ [dq]) ++ ' ' :: (junk ++ ' ' :: (k2 ++ '=' :: v2))))
      = [name, k1 ++ '=' :: dq :: v1 ++ [dq], junk, k2 ++ '=' :: v2] := by
    rw [splitWs_append name _ hnN hwN,
        splitWs_append _ _ ht1ne ht1w,
        splitWs_append junk _ hnJ hwJ,
        splitWs_single _ ht2ne ht2w]
  unfold _parse_action_line
  rw [hsplit]
  simp only [List.foldl]
  rw [show (k1 ++ '=' :: dq :: v1 ++ [dq]) = k1 ++ '=' :: (dq :: v1 ++ [dq]) from by simp,
      tokenToKV_eq [] k1 (dq :: v1 ++ [dq]) heK1, stripQuotes_dq]
  rw [tokenToKV_skip _ junk heJ]
  rw [tokenToKV_eq _ k2 v2 heK2, stripQuotes_plain v2 hnV2 hdqV2 hsqV2]
  simp [insertKV, hK12]

/-- C3 witness: `name k1="ab" junk k2=c`. -/
theorem parse_action_line_spec_witness :
    _parse_action_line
      ("name".data ++ ' ' ::
        (("k1".data ++ '=' :: dq :: "ab".data ++ [dq]) ++ ' ' ::
          ("junk".data ++ ' ' :: ("k2".data ++ '=' :: "c".data))))
      = some ("name".data, [("k1".data, "ab".data), ("k2".data, "c".data)]) :=
  parse_action_line_spec "name".data "k1".data "ab".data "junk".data "k2".data "c".data
    (by decide) (by decide) (by decide) (by decide) (by decide) (by decide) (by decide)
    (by decide) (by decide) (by decide) (by decide) (by decide) (by decide) (by decide)
    (by decide) (by decide) (by decide)

end BrowserAgent
